import Mathlib

/-!
Shallow embedding of the `emll::compiler` lowering core
(`src/libraries/compiler/src/Compiler.cpp`).

The model graph (`model::Model`, `model::Node`, `model::Port`) is embedded by the
observables the core consumes: a dependency-ordered visitation sequence of nodes,
each carrying a runtime type name, a concrete class identity (what `typeid` sees),
ordered input/output ports, and its dependent set.  Exceptions become `Except`
results; the 64-bit persistent-variable counter is a `Nat` reduced mod `2 ^ 64`.
Members declared only in the missing `Compiler.h` (the session bracket
`BeginMain`/`EndMain`, the literal lowering routine, the node-type map's `Get`,
the counter's initial value) are modelled from the spec and say so in their doc
comments.
-/

/-- Port element types.  The core only compares them for equality (spec §3, Port). -/
inductive PortType
  | real
  | integer
  | boolean
deriving DecidableEq

/-- `model::Port`: a typed edge endpoint; the core reads only `GetType()`. -/
structure Port where
  type : PortType
deriving DecidableEq

/-- Concrete class identity of a node, as observed by `typeid(node)`:
`ModelEx::CollectInputNodes` (Compiler.cpp 132-140) compares it against
`model::InputNode<double>` and `model::InputNode<int>`; `other k` stands for any
further concrete class. -/
inductive CppType
  | inputNodeDouble
  | inputNodeInt
  | other (k : Nat)
deriving DecidableEq

/-- `model::Node` as consumed by the core: `GetRuntimeTypeName()`, the concrete
class identity `typeid` sees, ordered input and output ports, and the ids of the
nodes that consume its output (`GetDependentNodes()`). -/
structure Node where
  runtimeTypeName : String
  cppType : CppType
  inputPorts : List Port
  outputPorts : List Port
  dependents : List Nat
deriving DecidableEq

/-- `model::Model`: `Visit` yields every node exactly once in dependency order;
the core observes nothing but that sequence, so the model is embedded as it. -/
structure Model where
  nodes : List Node
deriving DecidableEq

/-- `Compiler::NodeType`, the closed dispatch enumeration of
`Compiler::InitSupportedNodeTypes` (Compiler.cpp 104-111). -/
inductive Compiler.NodeType
  | input
  | constant
  | binaryOp
deriving DecidableEq

/-- `CompilerError` values thrown in Compiler.cpp (70, 87, 99).
`notSupported` is the spec's UnsupportedNodeKind; the two port errors are the
spec's PortTypeMismatch for the input and output direction. -/
inductive CompilerError
  | notSupported
  | inputPortTypeNotSupported
  | outputPortTypeNotSupported
deriving DecidableEq

/-- Modelled from the spec: `DataNodeType` is declared in the missing
`Compiler.h`; `Literal` is the case `Compiler::CompileNode` handles
(Compiler.cpp 66), and per spec §4.4 further kinds exist that the minimal core
does not handle. -/
inductive DataNodeType
  | Literal
  | Input
  | Binary
deriving DecidableEq

/-- `DataNode`, the compiler-side node fed to `Compiler::CompileNode`; the core
reads only `Type()`. -/
structure DataNode where
  type : DataNodeType
deriving DecidableEq

/-- Modelled from the spec: the observable events of a compilation session —
the bracket emitted by `BeginMain`/`EndMain` (spec §3, CompilationSession) and
the invocation of the literal lowering routine (spec §4.4). -/
inductive SessionEvent
  | beginMain (name : String)
  | endMain
  | lowerLiteral
deriving DecidableEq

/-- `c_InputVariableName` (Compiler.cpp 16). -/
def c_InputVariableName : String := "input"

/-- `c_OutputVariableName` (Compiler.cpp 17). -/
def c_OutputVariableName : String := "output"

/-- `c_PredictFunctionName` (Compiler.cpp 18). -/
def c_PredictFunctionName : String := "Predict"

/-- `ModelEx::IsLeafNode` (Compiler.cpp 175-178): no dependent nodes. -/
def ModelEx.IsLeafNode (node : Node) : Bool :=
  node.dependents.length == 0

/-- `ModelEx::CollectNodes` (Compiler.cpp 142-152): visit the model and keep the
nodes satisfying the predicate, in visitation order. -/
def ModelEx.CollectNodes (model : Model) (p : Node → Bool) : List Node :=
  model.nodes.filter p

/-- `ModelEx::CollectOutputNodes` (Compiler.cpp 122-130): the predicate actually
passed to `CollectNodes` is `IsLeafNode` (the `findNodes` lambda there is dead). -/
def ModelEx.CollectOutputNodes (model : Model) : List Node :=
  ModelEx.CollectNodes model (fun node => ModelEx.IsLeafNode node)

/-- `ModelEx::CollectInputNodes` (Compiler.cpp 132-140): type-identity test of
`typeid(node)` against `InputNode<double>` and `InputNode<int>`. -/
def ModelEx.CollectInputNodes (model : Model) : List Node :=
  ModelEx.CollectNodes model (fun node =>
    node.cppType == CppType.inputNodeDouble || node.cppType == CppType.inputNodeInt)

/-- `ModelEx::GetNodeDataType` (Compiler.cpp 117-120): the type of output port 0,
read through an unguarded index; the out-of-bounds access is `none`. -/
def ModelEx.GetNodeDataType (node : Node) : Option PortType :=
  (node.outputPorts.get? 0).map Port.type

/-- The modulus of the `uint64_t` counter behind `Compiler::AllocGlobal`. -/
def uint64Mod : Nat := 2 ^ 64

/-- The Driver's member state (`Compiler`'s fields, Compiler.h being external):
the persistent-variable counter `_globalVars`, the node-type registry
`_nodeTypes`, the resolved `_inputs`/`_outputs`, and — modelled from the spec
(§3 CompilationSession) — the session-open flag and the session event trace. -/
structure CompilerState where
  globalVars : Nat
  nodeTypes : List (String × Compiler.NodeType)
  inputs : List Node
  outputs : List Node
  sessionOpen : Bool
  trace : List SessionEvent
deriving DecidableEq

/-- `Compiler::InitSupportedNodeTypes` (Compiler.cpp 104-111): the registry
contents installed at construction. -/
def Compiler.InitSupportedNodeTypes : List (String × Compiler.NodeType) :=
  [("Input", Compiler.NodeType.input),
   ("ConstantNode", Compiler.NodeType.constant),
   ("BinaryOperationNode", Compiler.NodeType.binaryOp)]

/-- `Compiler::Compiler()` (Compiler.cpp 21-25): a fresh driver with the built-in
registry.  The counter's initial value 0 is modelled from the spec ("starting
at 1", §4.1, with the increment-then-return of Compiler.cpp 47-51). -/
def initialState : CompilerState :=
  { globalVars := 0,
    nodeTypes := Compiler.InitSupportedNodeTypes,
    inputs := [],
    outputs := [],
    sessionOpen := false,
    trace := [] }

/-- `Compiler::AllocGlobal` (Compiler.cpp 47-51): increment the `uint64_t`
counter, then return it. -/
def Compiler.AllocGlobal (s : CompilerState) : CompilerState × Nat :=
  let g := (s.globalVars + 1) % uint64Mod
  ({ s with globalVars := g }, g)

/-- Modelled from the spec: `NodeTypeMap::Get` (declared in the missing
`Compiler.h`): lookup of the kind identifier, failing with the
UnsupportedNodeKind error when the identifier is absent (spec §4.2). -/
def NodeTypeMap.Get (m : List (String × Compiler.NodeType)) (kindId : String) :
    Except CompilerError Compiler.NodeType :=
  match List.lookup kindId m with
  | some t => Except.ok t
  | none => Except.error CompilerError.notSupported

/-- `Compiler::GetNodeType` (Compiler.cpp 75-78): registry lookup of the node's
runtime type name. -/
def Compiler.GetNodeType (s : CompilerState) (node : Node) :
    Except CompilerError Compiler.NodeType :=
  NodeTypeMap.Get s.nodeTypes node.runtimeTypeName

/-- Modelled from the spec: `Compiler::BeginMain` (declared in the missing
`Compiler.h`) opens the named session (spec §3, §4.4). -/
def Compiler.BeginMain (s : CompilerState) (name : String) : CompilerState :=
  { s with sessionOpen := true, trace := s.trace ++ [SessionEvent.beginMain name] }

/-- Modelled from the spec: `Compiler::EndMain` closes the open session. -/
def Compiler.EndMain (s : CompilerState) : CompilerState :=
  { s with sessionOpen := false, trace := s.trace ++ [SessionEvent.endMain] }

/-- Modelled from the spec: the literal-constant lowering routine
`Compiler::Compile(LiteralNode&)` invoked at Compiler.cpp 67 — the only lowering
the minimal core implements (spec §4.4); it succeeds. -/
def Compiler.CompileLiteral (s : CompilerState) : CompilerState :=
  { s with trace := s.trace ++ [SessionEvent.lowerLiteral] }

/-- `Compiler::CompileModel` (Compiler.cpp 53-59): resolve `_inputs` and
`_outputs` through `ModelEx`, then `BeginMain("Predict")` and `EndMain`. -/
def Compiler.CompileModel (s : CompilerState) (model : Model) : CompilerState :=
  let s1 := { s with inputs := ModelEx.CollectInputNodes model,
                     outputs := ModelEx.CollectOutputNodes model }
  Compiler.EndMain (Compiler.BeginMain s1 c_PredictFunctionName)

/-- `Compiler::CompileNode` (Compiler.cpp 61-73): `BeginMain("Predict")`, then a
switch on `node.Type()` — `Literal` is lowered and `EndMain` runs; every other
kind throws `notSupported`, and the throw skips `EndMain`, so the state at the
throw point (session still open) travels with the error. -/
def Compiler.CompileNode (s : CompilerState) (node : DataNode) :
    Except (CompilerError × CompilerState) CompilerState :=
  let s1 := Compiler.BeginMain s c_PredictFunctionName
  match node.type with
  | DataNodeType.Literal => Except.ok (Compiler.EndMain (Compiler.CompileLiteral s1))
  | _ => Except.error (CompilerError.notSupported, s1)

/-- The loop of `Compiler::VerifyInputType` (Compiler.cpp 82-89): throw
`inputPortTypeNotSupported` at the first port whose type differs. -/
def Compiler.verifyInputLoop : List Port → PortType → Except CompilerError Unit
  | [], _ => Except.ok ()
  | p :: rest, t =>
    if p.type ≠ t then Except.error CompilerError.inputPortTypeNotSupported
    else Compiler.verifyInputLoop rest t

/-- `Compiler::VerifyInputType` (Compiler.cpp 80-90). -/
def Compiler.VerifyInputType (node : Node) (t : PortType) : Except CompilerError Unit :=
  Compiler.verifyInputLoop node.inputPorts t

/-- The loop of `Compiler::VerifyOutputType` (Compiler.cpp 94-101): throw
`outputPortTypeNotSupported` at the first port whose type differs. -/
def Compiler.verifyOutputLoop : List Port → PortType → Except CompilerError Unit
  | [], _ => Except.ok ()
  | p :: rest, t =>
    if p.type ≠ t then Except.error CompilerError.outputPortTypeNotSupported
    else Compiler.verifyOutputLoop rest t

/-- `Compiler::VerifyOutputType` (Compiler.cpp 92-102). -/
def Compiler.VerifyOutputType (node : Node) (t : PortType) : Except CompilerError Unit :=
  Compiler.verifyOutputLoop node.outputPorts t

/-- `Compiler::Reset` (Compiler.cpp 113-115): the body is empty, the state is
returned unchanged. -/
def Compiler.Reset (s : CompilerState) : CompilerState := s

/-- Driver state after `n` successive `AllocGlobal` calls on a fresh driver. -/
def allocStateAfter : Nat → CompilerState
  | 0 => initialState
  | n + 1 => (Compiler.AllocGlobal (allocStateAfter n)).1

/-- Identifier returned by the `n`-th `AllocGlobal` call (`n ≥ 1`) on a fresh
driver. -/
def allocResult (n : Nat) : Nat :=
  (Compiler.AllocGlobal (allocStateAfter (n - 1))).2

/-- Observer for the error side of a `CompileNode` result: the session-open flag
at the moment the error left the call. -/
def sessionOpenOnError (r : Except (CompilerError × CompilerState) CompilerState) :
    Option Bool :=
  match r with
  | Except.error (_, s) => some s.sessionOpen
  | Except.ok _ => none

/-- Concrete leaf node used to instantiate C1. -/
def nLeafC1 : Node :=
  { runtimeTypeName := "ConstantNode",
    cppType := CppType.other 0,
    inputPorts := [],
    outputPorts := [⟨PortType.real⟩],
    dependents := [] }

/-- C1: for every model and every node N of that model, N is in
`CollectOutputNodes(model)` iff `N.dependents.count == 0`, i.e. iff
`IsLeafNode(N)` holds. -/
theorem collectOutputNodes_iff_leaf (m : Model) (n : Node) (h : n ∈ m.nodes) :
    n ∈ ModelEx.CollectOutputNodes m ↔ ModelEx.IsLeafNode n = true := by
  simp [ModelEx.CollectOutputNodes, ModelEx.CollectNodes, List.mem_filter, h]

/-- Witness for C1 at a concrete one-node model whose node has no dependents. -/
theorem collectOutputNodes_iff_leaf_witness :
    nLeafC1 ∈ ModelEx.CollectOutputNodes ⟨[nLeafC1]⟩ ↔ ModelEx.IsLeafNode nLeafC1 = true :=
  collectOutputNodes_iff_leaf ⟨[nLeafC1]⟩ nLeafC1 (List.mem_singleton.mpr rfl)

/-- A node whose kind identifier "Input" is the registered input kind, but whose
concrete class is neither `InputNode<double>` nor `InputNode<int>`. -/
def nFakeInput : Node :=
  { runtimeTypeName := "Input",
    cppType := CppType.other 0,
    inputPorts := [],
    outputPorts := [⟨PortType.real⟩],
    dependents := [1] }

/-- C2 counterexample: Registry lookup classifies `nFakeInput` as the input kind,
yet `CollectInputNodes` excludes it from a model containing it — membership is
decided by type identity (`typeid`), not by Registry lookup of the kind
identifier. -/
theorem collectInputNodes_not_registry :
    Compiler.GetNodeType initialState nFakeInput = Except.ok Compiler.NodeType.input ∧
    nFakeInput ∉ ModelEx.CollectInputNodes ⟨[nFakeInput]⟩ :=
  ⟨rfl, by decide⟩

/-- C2 (amended): `CollectInputNodes(model)` returns exactly the nodes of the
model whose concrete class is `InputNode<double>` or `InputNode<int>`, decided by
type identity and independent of the Registry. -/
theorem collectInputNodes_iff_typeid (m : Model) (n : Node) :
    n ∈ ModelEx.CollectInputNodes m ↔
      n ∈ m.nodes ∧
        (n.cppType = CppType.inputNodeDouble ∨ n.cppType = CppType.inputNodeInt) := by
  simp [ModelEx.CollectInputNodes, ModelEx.CollectNodes, List.mem_filter]

/-- C7: Registry lookup maps the three built-in kind identifiers to `input`,
`constant`, `binaryOp` respectively, and fails with the UnsupportedNodeKind error
(`notSupported`) on every kind identifier absent from the Registry. -/
theorem registry_lookup_builtin :
    NodeTypeMap.Get Compiler.InitSupportedNodeTypes "Input" =
        Except.ok Compiler.NodeType.input ∧
    NodeTypeMap.Get Compiler.InitSupportedNodeTypes "ConstantNode" =
        Except.ok Compiler.NodeType.constant ∧
    NodeTypeMap.Get Compiler.InitSupportedNodeTypes "BinaryOperationNode" =
        Except.ok Compiler.NodeType.binaryOp ∧
    ∀ kindId, List.lookup kindId Compiler.InitSupportedNodeTypes = none →
      NodeTypeMap.Get Compiler.InitSupportedNodeTypes kindId =
        Except.error CompilerError.notSupported :=
  ⟨rfl, rfl, rfl, fun _ h => by simp [NodeTypeMap.Get, h]⟩

/-- Witness for C7 at the absent identifier "UnregisteredKind": the lookup fails
with the UnsupportedNodeKind error. -/
theorem registry_lookup_builtin_witness :
    NodeTypeMap.Get Compiler.InitSupportedNodeTypes "UnregisteredKind" =
      Except.error CompilerError.notSupported :=
  registry_lookup_builtin.2.2.2 "UnregisteredKind" rfl

/-- C3: `CompileNode` on a node whose kind is not `Literal` fails with the
UnsupportedNodeKind error (`notSupported`); on a `Literal` node it invokes the
literal-constant lowering and succeeds without that error. -/
theorem compileNode_literal_only (s : CompilerState) (n : DataNode) :
    (n.type ≠ DataNodeType.Literal →
      Compiler.CompileNode s n =
        Except.error (CompilerError.notSupported,
          Compiler.BeginMain s c_PredictFunctionName)) ∧
    (n.type = DataNodeType.Literal →
      ∃ s', Compiler.CompileNode s n = Except.ok s' ∧
        SessionEvent.lowerLiteral ∈ s'.trace) := by
  obtain ⟨t⟩ := n
  cases t with
  | Literal =>
    refine ⟨fun h => absurd rfl h, fun _ => ⟨_, rfl, ?_⟩⟩
    simp [Compiler.EndMain, Compiler.CompileLiteral, Compiler.BeginMain]
  | Input => exact ⟨fun _ => rfl, fun h => by cases h⟩
  | Binary => exact ⟨fun _ => rfl, fun h => by cases h⟩

/-- Witness for C3: on a concrete non-Literal node the call fails with the
unsupported-kind error. -/
theorem compileNode_literal_only_witness :
    Compiler.CompileNode initialState ⟨DataNodeType.Binary⟩ =
      Except.error (CompilerError.notSupported,
        Compiler.BeginMain initialState c_PredictFunctionName) :=
  (compileNode_literal_only initialState ⟨DataNodeType.Binary⟩).1 (by decide)

/-- C4 counterexample: the failing `CompileNode` call on a non-Literal node
leaves the session open — the throw at Compiler.cpp 70 skips `EndMain`, so the
session-open flag is still set when the error leaves the call. -/
theorem compileNode_fail_session_open :
    sessionOpenOnError (Compiler.CompileNode initialState ⟨DataNodeType.Binary⟩) =
      some true := rfl

/-- C4 (amended): every failing compilation call raises synchronously with
exactly one error kind (`notSupported`), and a successful call closes the
session; `CompileModel` always closes the session, but a failing `CompileNode`
does not close it — the session is left open because the throw skips `EndMain`. -/
theorem compile_error_discipline (s : CompilerState) (n : DataNode) :
    (∀ s', Compiler.CompileNode s n = Except.ok s' → s'.sessionOpen = false) ∧
    (∀ e s', Compiler.CompileNode s n = Except.error (e, s') →
      e = CompilerError.notSupported ∧ s'.sessionOpen = true) ∧
    (∀ m, (Compiler.CompileModel s m).sessionOpen = false) := by
  refine ⟨?_, ?_, fun m => rfl⟩
  · obtain ⟨t⟩ := n
    cases t with
    | Literal =>
      intro s' h
      cases h
      rfl
    | Input => intro s' h; cases h
    | Binary => intro s' h; cases h
  · obtain ⟨t⟩ := n
    cases t with
    | Literal => intro e s' h; cases h
    | Input =>
      intro e s' h
      cases h
      exact ⟨rfl, rfl⟩
    | Binary =>
      intro e s' h
      cases h
      exact ⟨rfl, rfl⟩

/-- Witness for C4's amended theorem: the successful `CompileNode` call on a
concrete Literal node ends with the session closed. -/
theorem compile_error_discipline_witness :
    (Compiler.EndMain (Compiler.CompileLiteral
      (Compiler.BeginMain initialState c_PredictFunctionName))).sessionOpen = false :=
  (compile_error_discipline initialState ⟨DataNodeType.Literal⟩).1 _ rfl

theorem verifyInputLoop_ok_iff (l : List Port) (t : PortType) :
    Compiler.verifyInputLoop l t = Except.ok () ↔ ∀ p ∈ l, p.type = t := by
  induction l with
  | nil => simp [Compiler.verifyInputLoop]
  | cons p rest ih =>
    by_cases hp : p.type = t
    · simp [Compiler.verifyInputLoop, hp, ih]
    · simp [Compiler.verifyInputLoop, hp]

theorem verifyInputLoop_error_iff (l : List Port) (t : PortType) (e : CompilerError) :
    Compiler.verifyInputLoop l t = Except.error e ↔
      e = CompilerError.inputPortTypeNotSupported ∧ ∃ p ∈ l, p.type ≠ t := by
  induction l with
  | nil => simp [Compiler.verifyInputLoop]
  | cons p rest ih =>
    by_cases hp : p.type = t
    · simp [Compiler.verifyInputLoop, hp, ih]
    · simp [Compiler.verifyInputLoop, hp]
      exact eq_comm

theorem verifyOutputLoop_ok_iff (l : List Port) (t : PortType) :
    Compiler.verifyOutputLoop l t = Except.ok () ↔ ∀ p ∈ l, p.type = t := by
  induction l with
  | nil => simp [Compiler.verifyOutputLoop]
  | cons p rest ih =>
    by_cases hp : p.type = t
    · simp [Compiler.verifyOutputLoop, hp, ih]
    · simp [Compiler.verifyOutputLoop, hp]

theorem verifyOutputLoop_error_iff (l : List Port) (t : PortType) (e : CompilerError) :
    Compiler.verifyOutputLoop l t = Except.error e ↔
      e = CompilerError.outputPortTypeNotSupported ∧ ∃ p ∈ l, p.type ≠ t := by
  induction l with
  | nil => simp [Compiler.verifyOutputLoop]
  | cons p rest ih =>
    by_cases hp : p.type = t
    · simp [Compiler.verifyOutputLoop, hp, ih]
    · simp [Compiler.verifyOutputLoop, hp]
      exact eq_comm

/-- C5: `VerifyInputType(node, T)` succeeds iff every input port has type `T`
(vacuously on zero input ports) and fails iff some input port's type differs,
always with the input-direction PortTypeMismatch error
(`inputPortTypeNotSupported`); symmetrically, `VerifyOutputType` over the output
ports with `outputPortTypeNotSupported`. -/
theorem verifyType_iff_mismatch (n : Node) (t : PortType) :
    (Compiler.VerifyInputType n t = Except.ok () ↔ ∀ p ∈ n.inputPorts, p.type = t) ∧
    (∀ e, Compiler.VerifyInputType n t = Except.error e ↔
      e = CompilerError.inputPortTypeNotSupported ∧ ∃ p ∈ n.inputPorts, p.type ≠ t) ∧
    (n.inputPorts = [] → Compiler.VerifyInputType n t = Except.ok ()) ∧
    (Compiler.VerifyOutputType n t = Except.ok () ↔ ∀ p ∈ n.outputPorts, p.type = t) ∧
    (∀ e, Compiler.VerifyOutputType n t = Except.error e ↔
      e = CompilerError.outputPortTypeNotSupported ∧ ∃ p ∈ n.outputPorts, p.type ≠ t) ∧
    (n.outputPorts = [] → Compiler.VerifyOutputType n t = Except.ok ()) := by
  refine ⟨verifyInputLoop_ok_iff n.inputPorts t,
    fun e => verifyInputLoop_error_iff n.inputPorts t e,
    fun h => ?_,
    verifyOutputLoop_ok_iff n.outputPorts t,
    fun e => verifyOutputLoop_error_iff n.outputPorts t e,
    fun h => ?_⟩
  · rw [Compiler.VerifyInputType, h]
    rfl
  · rw [Compiler.VerifyOutputType, h]
    rfl

/-- Concrete node used to instantiate C5: zero input ports, one output port. -/
def nPortsC5 : Node :=
  { runtimeTypeName := "ConstantNode",
    cppType := CppType.other 1,
    inputPorts := [],
    outputPorts := [⟨PortType.real⟩],
    dependents := [] }

/-- Witness for C5: on a node with zero input ports the input verification
succeeds vacuously. -/
theorem verifyType_iff_mismatch_witness :
    Compiler.VerifyInputType nPortsC5 PortType.integer = Except.ok () :=
  (verifyType_iff_mismatch nPortsC5 PortType.integer).2.2.1 rfl

theorem uint64Mod_succ (n : Nat) :
    (n % uint64Mod + 1) % uint64Mod = (n + 1) % uint64Mod := by
  conv_rhs => rw [Nat.add_mod]
  norm_num [uint64Mod]

theorem allocStateAfter_globalVars (n : Nat) :
    (allocStateAfter n).globalVars = n % uint64Mod := by
  induction n with
  | zero => rfl
  | succ n ih =>
    show ((allocStateAfter n).globalVars + 1) % uint64Mod = (n + 1) % uint64Mod
    rw [ih, uint64Mod_succ]

theorem allocResult_eq (n : Nat) (h : 1 ≤ n) : allocResult n = n % uint64Mod := by
  obtain ⟨m, rfl⟩ := Nat.exists_eq_add_of_le h
  show ((allocStateAfter (1 + m - 1)).globalVars + 1) % uint64Mod = (1 + m) % uint64Mod
  rw [Nat.add_sub_cancel_left, allocStateAfter_globalVars, uint64Mod_succ,
    Nat.add_comm m 1]

/-- C6 counterexample: the `uint64_t` counter wraps at the 2^64-th `AllocGlobal`
call — it returns 0 while the previous call returned 2^64 − 1, so the sequence
of identifiers is not strictly increasing (nor pairwise distinct beyond that
point) once N reaches 2^64. -/
theorem allocGlobal_wraps :
    allocResult 18446744073709551615 = 18446744073709551615 ∧
    allocResult 18446744073709551616 = 0 ∧
    ¬ allocResult 18446744073709551615 < allocResult 18446744073709551616 := by
  have h1 : allocResult 18446744073709551615 = 18446744073709551615 := by
    rw [allocResult_eq 18446744073709551615 (by norm_num)]
    norm_num [uint64Mod]
  have h2 : allocResult 18446744073709551616 = 0 := by
    rw [allocResult_eq 18446744073709551616 (by norm_num)]
    norm_num [uint64Mod]
  exact ⟨h1, h2, by rw [h1, h2]; norm_num⟩

/-- C6 (amended): for call indices `1 ≤ i < j < 2^64` on one fresh driver, the
identifiers returned by `AllocGlobal` are strictly increasing in call order and
pairwise distinct, and the first call returns 1. -/
theorem allocGlobal_strict_mono (i j : Nat) (hi : 1 ≤ i) (hij : i < j)
    (hj : j < uint64Mod) :
    allocResult i < allocResult j ∧ allocResult i ≠ allocResult j ∧
      allocResult 1 = 1 := by
  have hi' : i < uint64Mod := lt_trans hij hj
  have hlt : allocResult i < allocResult j := by
    rw [allocResult_eq i hi, allocResult_eq j (le_of_lt (lt_of_le_of_lt hi hij)),
      Nat.mod_eq_of_lt hi', Nat.mod_eq_of_lt hj]
    exact hij
  have h1 : allocResult 1 = 1 := by
    rw [allocResult_eq 1 (le_refl 1)]
    norm_num [uint64Mod]
  exact ⟨hlt, Nat.ne_of_lt hlt, h1⟩

/-- Witness for C6's amended theorem at the first two calls: the second
identifier exceeds the first, they differ, and the first is 1. -/
theorem allocGlobal_strict_mono_witness :
    allocResult 1 < allocResult 2 ∧ allocResult 1 ≠ allocResult 2 ∧
      allocResult 1 = 1 :=
  allocGlobal_strict_mono 1 2 (by norm_num) (by norm_num) (by norm_num [uint64Mod])

/-- C8: `CompileModel` resolves the input and output node sets via the Analyzer
(`ModelEx`), opens the session named "Predict" and closes it, for every model —
and on the zero-node model both resolutions are empty; the function is total, so
no error is raised. -/
theorem compileModel_always_brackets (s : CompilerState) (m : Model) :
    (Compiler.CompileModel s m).inputs = ModelEx.CollectInputNodes m ∧
    (Compiler.CompileModel s m).outputs = ModelEx.CollectOutputNodes m ∧
    (Compiler.CompileModel s m).trace =
      s.trace ++ [SessionEvent.beginMain c_PredictFunctionName, SessionEvent.endMain] ∧
    (Compiler.CompileModel s m).sessionOpen = false ∧
    (Compiler.CompileModel s ⟨[]⟩).inputs = [] ∧
    (Compiler.CompileModel s ⟨[]⟩).outputs = [] := by
  refine ⟨rfl, rfl, ?_, rfl, rfl, rfl⟩
  simp [Compiler.CompileModel, Compiler.BeginMain, Compiler.EndMain]

/-- Concrete model used to instantiate C9: one genuine input node, so compiling
it leaves a non-empty resolved input set in the driver state. -/
def mInputC9 : Model :=
  ⟨[{ runtimeTypeName := "Input",
      cppType := CppType.inputNodeDouble,
      inputPorts := [],
      outputPorts := [⟨PortType.real⟩],
      dependents := [] }]⟩

/-- C9 counterexample: `Reset` has an empty body; after a compilation it leaves
the session-scoped resolved input set in place instead of clearing it back to
the fresh-driver state, so two compilations separated by `Reset` do not start
from equivalent session-scoped state. -/
theorem reset_does_not_clear :
    (Compiler.Reset (Compiler.CompileModel initialState mInputC9)).inputs ≠
      initialState.inputs := by decide

/-- C9 (amended): `Reset` is a no-op — it leaves the Registry contents unchanged,
and equally leaves every other piece of driver state, including session-scoped
state, unchanged rather than clearing it. -/
theorem reset_identity (s : CompilerState) :
    (Compiler.Reset s).nodeTypes = s.nodeTypes ∧ Compiler.Reset s = s :=
  ⟨rfl, rfl⟩

/-- C10: `GetNodeDataType` reads the type of output port 0 with an unguarded
index: it is defined (returns the first output port's type) exactly when the
node has at least one output port, and on a node with zero output ports the
access is out of bounds (`none`). -/
theorem getNodeDataType_first_output (n : Node) :
    ((ModelEx.GetNodeDataType n).isSome ↔ n.outputPorts ≠ []) ∧
    (∀ p rest, n.outputPorts = p :: rest →
      ModelEx.GetNodeDataType n = some p.type) ∧
    (n.outputPorts = [] → ModelEx.GetNodeDataType n = none) := by
  obtain ⟨name, ct, ins, outs, deps⟩ := n
  cases outs with
  | nil =>
    refine ⟨by simp [ModelEx.GetNodeDataType], ?_, fun _ => rfl⟩
    intro p rest h
    cases h
  | cons p rest =>
    refine ⟨by simp [ModelEx.GetNodeDataType], ?_, fun h => by cases h⟩
    intro q qrest h
    cases h
    rfl

/-- Concrete node used to instantiate C10: one output port of type `real`. -/
def nOutC10 : Node :=
  { runtimeTypeName := "ConstantNode",
    cppType := CppType.other 2,
    inputPorts := [],
    outputPorts := [⟨PortType.real⟩],
    dependents := [] }

/-- Witness for C10: on a node with one output port of type `real`,
`GetNodeDataType` returns that type. -/
theorem getNodeDataType_first_output_witness :
    ModelEx.GetNodeDataType nOutC10 = some PortType.real :=
  (getNodeDataType_first_output nOutC10).2.1 ⟨PortType.real⟩ [] rfl
